import Mathlib

/-!
Shallow embedding of the scroll-driven animation logic of the repository.

Two source modules are embedded:
* `Main` — the main scene module (`src/unnamed/part_000`): the scroll listener,
  the two-stage camera/particle blend in `animate`, the primary-model
  ("world crystal") fade, the particle easing step, and the inlined
  top-GLB overlay helpers (`updateTopGLB`).
* `Loader` — `src/top-glb-loader.js`: `clamp01`, `smoothstep`, the internal
  scroll binding, the overlay fade target and exponential approach in
  `updateTopGLB`, and the header-canvas layout computation
  `updateTopGLBHeaderCanvasLayout`.

JavaScript numbers are modelled as exact rationals (`ℚ`); decimal literals of
the source are written as the equal fractions (0.5 = 1/2, 0.2 = 1/5,
0.07 = 7/100, 0.01 = 1/100, 0.12 = 3/25, 1e-6 = 1/1000000).
-/

/-- A 3D vector with rational components (three.js `Vector3`). -/
structure Vec3 where
  x : ℚ
  y : ℚ
  z : ℚ
  deriving DecidableEq, Repr

/-- Which particle formation array a selector of `animate` picks
(`formation1`, `formation2`, `formation3` of `part_000`; the arrays
themselves are filled by `Math.random` sampling and play no role in the
selection logic). -/
inductive FormationId where
  | formation1
  | formation2
  | formation3
  deriving DecidableEq, Repr

namespace Main

/-- three.js `Vector3.lerpVectors(v1, v2, alpha)`:
componentwise `v1 + (v2 - v1) * alpha`. -/
def lerpVectors (v1 v2 : Vec3) (alpha : ℚ) : Vec3 :=
  ⟨v1.x + (v2.x - v1.x) * alpha,
   v1.y + (v2.y - v1.y) * alpha,
   v1.z + (v2.z - v1.z) * alpha⟩

/-- `const camState1 = new Vector3(0, 0, 15)` (waypoint W1). -/
def camState1 : Vec3 := ⟨0, 0, 15⟩

/-- `const camState2 = new Vector3(14, -3, 8)` (waypoint W2). -/
def camState2 : Vec3 := ⟨14, -3, 8⟩

/-- `const camState3 = new Vector3(0, 0, 18)` (waypoint W3). -/
def camState3 : Vec3 := ⟨0, 0, 18⟩

/-- `const pInterp = (scrollProgress < .5) ? scrollProgress * 2
: (scrollProgress - .5) * 2` in `animate`. -/
def pInterp (s : ℚ) : ℚ :=
  if s < 1/2 then s * 2 else (s - 1/2) * 2

/-- `const camSrc = (scrollProgress < .5) ? camState1 : camState2`. -/
def camSrc (s : ℚ) : Vec3 :=
  if s < 1/2 then camState1 else camState2

/-- `const camDst = (scrollProgress < .5) ? camState2 : camState3`. -/
def camDst (s : ℚ) : Vec3 :=
  if s < 1/2 then camState2 else camState3

/-- `const pSrc = (scrollProgress < .5) ? formation1 : formation2`
(which formation array is the blend source). -/
def pSrc (s : ℚ) : FormationId :=
  if s < 1/2 then .formation1 else .formation2

/-- `const pDst = (scrollProgress < .5) ? formation2 : formation3`
(which formation array is the blend destination). -/
def pDst (s : ℚ) : FormationId :=
  if s < 1/2 then .formation2 else .formation3

/-- The camera state written by `animate`: position and look-at target. -/
structure CameraState where
  position : Vec3
  lookTarget : Vec3
  deriving DecidableEq, Repr

/-- `camera.position.lerpVectors(camSrc, camDst, pInterp); camera.lookAt(0,0,0);`
in `animate`, as a function of the scroll fraction. -/
def animateCameraUpdate (s : ℚ) : CameraState :=
  { position := lerpVectors (camSrc s) (camDst s) (pInterp s)
    lookTarget := ⟨0, 0, 0⟩ }

/-- `const animProgress = Math.min(scrollProgress / 0.2, 1.0)` in `animate`. -/
def animProgress (s : ℚ) : ℚ :=
  min (s / (1/5)) 1

/-- `n.material.opacity = 1 - animProgress` for the world-crystal meshes. -/
def worldCrystalOpacity (s : ℚ) : ℚ :=
  1 - animProgress s

/-- `worldCrystal.visible = (animProgress < 1.0)` in `animate`. -/
def worldCrystalVisible (s : ℚ) : Bool :=
  decide (animProgress s < 1)

/-- three.js `MathUtils.lerp(x, y, t) = (1 - t) * x + t * y`. -/
def mathUtilsLerp (x y t : ℚ) : ℚ :=
  (1 - t) * x + t * y

/-- The per-component particle easing step of `animate`:
`posAttr.array[i] = MathUtils.lerp(posAttr.array[i], tX, .07)`. -/
def easeStep (current tgt : ℚ) : ℚ :=
  mathUtilsLerp current tgt (7/100)

/-- The scroll listener of `part_000`:
`const h = document.documentElement.scrollHeight - window.innerHeight;
if (h > 0) scrollProgress = window.scrollY / h;`
(leaves the previous `scrollProgress` in place when `h ≤ 0`). -/
def scrollListenerUpdate (scrollY innerHeight scrollHeight oldProgress : ℚ) : ℚ :=
  let h := scrollHeight - innerHeight
  if 0 < h then scrollY / h else oldProgress

/-- The canvas opacity set by the inlined `updateTopGLB` of `part_000`:
`const opacity = Math.max(0, (scroll - showAt) / (fullAt - showAt))`. -/
def updateTopGLBOpacity (scroll showAt fullAt : ℚ) : ℚ :=
  max 0 ((scroll - showAt) / (fullAt - showAt))

end Main

namespace Loader

/-- `function clamp01(x){ return Math.min(1, Math.max(0, x)); }`. -/
def clamp01 (x : ℚ) : ℚ :=
  min 1 (max 0 x)

/-- `function smoothstep(t) { t = clamp01(t); return t * t * (3 - 2 * t); }`
(the reassigned `t` is written `clamp01 t` at each use). -/
def smoothstep (t : ℚ) : ℚ :=
  clamp01 t * clamp01 t * (3 - 2 * clamp01 t)

/-- The internal scroll binding of `attachInternalScrollIfNeeded`:
`const max = Math.max(1, doc.scrollHeight - doc.clientHeight);
_scrollProgress = clamp01(scrollTop / max);`. -/
def scrollUpdate (scrollTop scrollHeight clientHeight : ℚ) : ℚ :=
  let m := max 1 (scrollHeight - clientHeight)
  clamp01 (scrollTop / m)

/-- The ramp `t` of `updateTopGLB`: 0 at or below `showAt`, 1 at or above
`fullAt`, else `(sp - showAt) / Math.max(1e-6, fullAt - showAt)`. -/
def rampT (sp showAt fullAt : ℚ) : ℚ :=
  if sp ≤ showAt then 0
  else if fullAt ≤ sp then 1
  else (sp - showAt) / max (1/1000000) (fullAt - showAt)

/-- The overlay fade target of `updateTopGLB`:
`const sp = clamp01(_getScrollProgress()); ... const eased = smoothstep(t);
const targetOpacity = eased;`. -/
def updateTopGLBTargetOpacity (scroll showAt fullAt : ℚ) : ℚ :=
  smoothstep (rampT (clamp01 scroll) showAt fullAt)

/-- The exponential approach of `updateTopGLB`:
`_topGLB.opacity += (targetOpacity - _topGLB.opacity) * Math.min(1, delta * lerpSpeed)`. -/
def opacityStep (opacity targetOpacity delta lerpSpeed : ℚ) : ℚ :=
  opacity + (targetOpacity - opacity) * min 1 (delta * lerpSpeed)

/-- A DOM bounding rectangle as read by `getBoundingClientRect`. -/
structure Rect where
  left : ℚ
  top : ℚ
  width : ℚ
  height : ℚ
  deriving DecidableEq, Repr

/-- The layout configuration of `_headerCanvas` (`fit`, `fitAmount`,
`offsetX`, `offsetY`). -/
structure HeaderCanvasConfig where
  fit : String
  fitAmount : ℚ
  offsetX : ℚ
  offsetY : ℚ
  deriving DecidableEq, Repr

/-- The bounding-box size of the overlay object,
`new THREE.Box3().setFromObject(...).getSize(size)` (opaque geometry query,
passed in as data). -/
structure BoxSize where
  x : ℚ
  y : ℚ
  deriving DecidableEq, Repr

/-- The mutable state touched by `updateTopGLBHeaderCanvasLayout`:
the guard flags (`_headerCanvas.enabled`, `_headerCanvas.headerEl`,
`_topGLB.object`), the canvas CSS box and display flag, the renderer size,
the orthographic camera frustum, and the pivot transform. -/
structure HeaderCanvasState where
  enabled : Bool
  hasHeaderEl : Bool
  hasObject : Bool
  displayed : Bool
  canvasLeft : ℚ
  canvasTop : ℚ
  canvasWidth : ℚ
  canvasHeight : ℚ
  rendererW : ℚ
  rendererH : ℚ
  camLeft : ℚ
  camRight : ℚ
  camTop : ℚ
  camBottom : ℚ
  pivotX : ℚ
  pivotY : ℚ
  pivotScale : ℚ
  needsLayout : Bool
  deriving DecidableEq, Repr

/-- The guarded scale of `updateTopGLBHeaderCanvasLayout`:
`let s = 1;
if (fit === 'height' && size.y > 0) s = (rect.height * fitAmount) / size.y;
else if (fit === 'width' && size.x > 0) s = (rect.width * fitAmount) / size.x;`. -/
def computeFitScale (fit : String) (fitAmount rw rh sx sy : ℚ) : ℚ :=
  if fit = "height" ∧ 0 < sy then rh * fitAmount / sy
  else if fit = "width" ∧ 0 < sx then rw * fitAmount / sx
  else 1

/-- `updateTopGLBHeaderCanvasLayout` of `top-glb-loader.js` as a state
transition: early return unless enabled with a header element and a loaded
object; hide the canvas (and change nothing else) when the header rectangle
has a non-positive dimension; otherwise show it, size the canvas, renderer
and camera frustum to the rectangle, place the pivot at the configured
offset and apply the fit scale. -/
def updateTopGLBHeaderCanvasLayout (cfg : HeaderCanvasConfig) (size : BoxSize)
    (rect : Rect) (st : HeaderCanvasState) : HeaderCanvasState :=
  if !(st.enabled && st.hasHeaderEl && st.hasObject) then st
  else if 0 < rect.width ∧ 0 < rect.height then
    { st with
      displayed := true
      canvasLeft := rect.left
      canvasTop := rect.top
      canvasWidth := rect.width
      canvasHeight := rect.height
      rendererW := rect.width
      rendererH := rect.height
      camLeft := -rect.width / 2
      camRight := rect.width / 2
      camTop := rect.height / 2
      camBottom := -rect.height / 2
      pivotX := cfg.offsetX
      pivotY := cfg.offsetY
      pivotScale := computeFitScale cfg.fit cfg.fitAmount rect.width rect.height size.x size.y
      needsLayout := false }
  else { st with displayed := false }

end Loader

/-- C1: for every scroll fraction `s`, the two-stage blend of `animate`
selects its segment as specified — below 1/2 the local parameter is `s * 2`
with source `(W1, F1)` and destination `(W2, F2)`, otherwise it is
`(s - 1/2) * 2` with source `(W2, F2)` and destination `(W3, F3)` — the
camera position is the lerp of the selected waypoints at that parameter,
and the camera is re-oriented to look at the origin. -/
theorem c1_two_stage_blend (s : ℚ) :
    (s < 1/2 →
      Main.pInterp s = s * 2 ∧
      Main.camSrc s = Main.camState1 ∧ Main.camDst s = Main.camState2 ∧
      Main.pSrc s = FormationId.formation1 ∧ Main.pDst s = FormationId.formation2) ∧
    (¬ s < 1/2 →
      Main.pInterp s = (s - 1/2) * 2 ∧
      Main.camSrc s = Main.camState2 ∧ Main.camDst s = Main.camState3 ∧
      Main.pSrc s = FormationId.formation2 ∧ Main.pDst s = FormationId.formation3) ∧
    (Main.animateCameraUpdate s).position =
      Main.lerpVectors (Main.camSrc s) (Main.camDst s) (Main.pInterp s) ∧
    (Main.animateCameraUpdate s).lookTarget = ⟨0, 0, 0⟩ := by
  refine ⟨fun h => ?_, fun h => ?_, rfl, rfl⟩
  · unfold Main.pInterp Main.camSrc Main.camDst Main.pSrc Main.pDst
    rw [if_pos h, if_pos h, if_pos h, if_pos h, if_pos h]
    exact ⟨rfl, rfl, rfl, rfl, rfl⟩
  · unfold Main.pInterp Main.camSrc Main.camDst Main.pSrc Main.pDst
    rw [if_neg h, if_neg h, if_neg h, if_neg h, if_neg h]
    exact ⟨rfl, rfl, rfl, rfl, rfl⟩

/-- Witness for C1 at the concrete scroll fractions 1/4 and 3/4. -/
theorem c1_two_stage_blend_witness :
    (Main.pInterp (1/4) = (1/4 : ℚ) * 2 ∧
      Main.camSrc (1/4) = Main.camState1 ∧ Main.camDst (1/4) = Main.camState2 ∧
      Main.pSrc (1/4) = FormationId.formation1 ∧ Main.pDst (1/4) = FormationId.formation2) ∧
    (Main.pInterp (3/4) = ((3/4 : ℚ) - 1/2) * 2 ∧
      Main.camSrc (3/4) = Main.camState2 ∧ Main.camDst (3/4) = Main.camState3 ∧
      Main.pSrc (3/4) = FormationId.formation2 ∧ Main.pDst (3/4) = FormationId.formation3) :=
  ⟨(c1_two_stage_blend (1/4)).1 (by norm_num),
   (c1_two_stage_blend (3/4)).2.1 (by norm_num)⟩

/-- C2: for every scroll fraction, the world crystal's opacity equals
`1 - min(scrollProgress / 0.2, 1)`, and its visibility boolean is true
exactly when that opacity is positive, i.e. exactly when
`scrollProgress / 0.2 < 1`. -/
theorem c2_crystal_opacity_visibility (s : ℚ) :
    Main.worldCrystalOpacity s = 1 - min (s / (1/5)) 1 ∧
    (Main.worldCrystalVisible s = true ↔ 0 < Main.worldCrystalOpacity s) ∧
    (Main.worldCrystalVisible s = true ↔ s / (1/5) < 1) := by
  refine ⟨rfl, ?_, ?_⟩ <;>
    simp [Main.worldCrystalVisible, Main.worldCrystalOpacity, Main.animProgress,
      min_lt_iff, sub_pos]

/-- `clamp01` never returns a negative value. -/
theorem Loader.clamp01_nonneg (x : ℚ) : 0 ≤ Loader.clamp01 x :=
  le_min (by norm_num) (le_max_left 0 x)

/-- `clamp01` never returns a value above 1. -/
theorem Loader.clamp01_le_one (x : ℚ) : Loader.clamp01 x ≤ 1 :=
  min_le_left 1 _

/-- `clamp01` is the identity on `[0, 1]`. -/
theorem Loader.clamp01_eq_self {x : ℚ} (h0 : 0 ≤ x) (h1 : x ≤ 1) :
    Loader.clamp01 x = x := by
  unfold Loader.clamp01
  rw [max_eq_right h0, min_eq_right h1]

/-- `smoothstep` always lands in `[0, 1]`. -/
theorem Loader.smoothstep_mem (t : ℚ) :
    0 ≤ Loader.smoothstep t ∧ Loader.smoothstep t ≤ 1 := by
  have h0 := Loader.clamp01_nonneg t
  have h1 := Loader.clamp01_le_one t
  unfold Loader.smoothstep
  constructor
  · exact mul_nonneg (mul_nonneg h0 h0) (by linarith)
  · have hc := mul_nonneg (sq_nonneg (1 - Loader.clamp01 t))
      (by linarith : (0:ℚ) ≤ 1 + 2 * Loader.clamp01 t)
    nlinarith [hc]

/-- C3 counterexample: at scroll fraction 1.5 the overlay fade inlined in
`part_000` produces canvas opacity `149/11 ≈ 13.5`, far above 1 — the
`Math.max(0, ·)` there only clamps from below. -/
theorem c3_counterexample :
    Main.updateTopGLBOpacity (3/2) (1/100) (3/25) = 149/11 ∧
    ¬ Main.updateTopGLBOpacity (3/2) (1/100) (3/25) ≤ 1 := by
  have h : Main.updateTopGLBOpacity (3/2) (1/100) (3/25) = 149/11 := by
    unfold Main.updateTopGLBOpacity
    rw [(by norm_num : ((3:ℚ)/2 - 1/100) / ((3:ℚ)/25 - 1/100) = 149/11)]
    exact max_eq_right (by norm_num)
  refine ⟨h, ?_⟩
  rw [h]
  norm_num

/-- C3 (amended): the world-crystal fade stays in `[0, 1]` for every
nonnegative scroll input; the overlay fade target of `top-glb-loader.js`
stays in `[0, 1]` for every input; the inlined overlay fade of `part_000`
is only bounded below by 0 (it exceeds 1 above `fullAt`); and the loader's
per-frame eased opacity stays in `[0, 1]` whenever it and its target start
there and the frame delta and rate are nonnegative. -/
theorem c3_opacity_ranges :
    (∀ s : ℚ, 0 ≤ s →
      0 ≤ Main.worldCrystalOpacity s ∧ Main.worldCrystalOpacity s ≤ 1) ∧
    (∀ scroll showAt fullAt : ℚ,
      0 ≤ Loader.updateTopGLBTargetOpacity scroll showAt fullAt ∧
      Loader.updateTopGLBTargetOpacity scroll showAt fullAt ≤ 1) ∧
    (∀ scroll showAt fullAt : ℚ,
      0 ≤ Main.updateTopGLBOpacity scroll showAt fullAt) ∧
    (∀ o tgt d ls : ℚ, 0 ≤ o → o ≤ 1 → 0 ≤ tgt → tgt ≤ 1 → 0 ≤ d → 0 ≤ ls →
      0 ≤ Loader.opacityStep o tgt d ls ∧ Loader.opacityStep o tgt d ls ≤ 1) := by
  refine ⟨fun s hs => ?_, fun scroll showAt fullAt => Loader.smoothstep_mem _,
    fun scroll showAt fullAt => le_max_left 0 _,
    fun o tgt d ls ho0 ho1 ht0 ht1 hd hls => ?_⟩
  · unfold Main.worldCrystalOpacity Main.animProgress
    have hmr := min_le_right (s / (1/5)) 1
    have hq : (0:ℚ) ≤ s / (1/5) := by positivity
    have hml : (0:ℚ) ≤ min (s / (1/5)) 1 := le_min hq (by norm_num)
    constructor <;> linarith
  · unfold Loader.opacityStep
    have hk0 : (0:ℚ) ≤ min 1 (d * ls) := le_min (by norm_num) (mul_nonneg hd hls)
    have hk1 : min 1 (d * ls) ≤ 1 := min_le_left 1 _
    constructor <;> nlinarith

/-- Witness for the amended C3 at concrete inputs. -/
theorem c3_opacity_ranges_witness :
    (0 ≤ Main.worldCrystalOpacity 2 ∧ Main.worldCrystalOpacity 2 ≤ 1) ∧
    (0 ≤ Loader.opacityStep 0 1 (1/60) 8 ∧ Loader.opacityStep 0 1 (1/60) 8 ≤ 1) :=
  ⟨c3_opacity_ranges.1 2 (by norm_num),
   c3_opacity_ranges.2.2.2 0 1 (1/60) 8 (by norm_num) (by norm_num)
     (by norm_num) (by norm_num) (by norm_num) (by norm_num)⟩

/-- C4: for every `s ∈ [0,1]` the blend parameter of `animate` lies in
`[0,1]`, and it is (ε-δ) continuous within each of the segments
`[0, 1/2)` and `[1/2, 1]`. -/
theorem c4_blend_param_bounds_continuity :
    (∀ s : ℚ, 0 ≤ s → s ≤ 1 → 0 ≤ Main.pInterp s ∧ Main.pInterp s ≤ 1) ∧
    (∀ s ∈ Set.Ico (0 : ℚ) (1/2), ∀ ε : ℚ, 0 < ε → ∃ δ : ℚ, 0 < δ ∧
      ∀ t ∈ Set.Ico (0 : ℚ) (1/2), |t - s| < δ →
        |Main.pInterp t - Main.pInterp s| < ε) ∧
    (∀ s ∈ Set.Icc (1/2 : ℚ) 1, ∀ ε : ℚ, 0 < ε → ∃ δ : ℚ, 0 < δ ∧
      ∀ t ∈ Set.Icc (1/2 : ℚ) 1, |t - s| < δ →
        |Main.pInterp t - Main.pInterp s| < ε) := by
  refine ⟨fun s h0 h1 => ?_,
    fun s hs ε hε => ⟨ε/2, by positivity, fun t ht hd => ?_⟩,
    fun s hs ε hε => ⟨ε/2, by positivity, fun t ht hd => ?_⟩⟩
  · by_cases h : s < 1/2
    · unfold Main.pInterp
      rw [if_pos h]
      constructor <;> linarith
    · unfold Main.pInterp
      rw [if_neg h]
      rw [not_lt] at h
      constructor <;> linarith
  · rw [Set.mem_Ico] at hs ht
    unfold Main.pInterp
    rw [if_pos hs.2, if_pos ht.2]
    have he : t * 2 - s * 2 = (t - s) * 2 := by ring
    rw [he, abs_mul, abs_two]
    have := abs_nonneg (t - s)
    linarith
  · rw [Set.mem_Icc] at hs ht
    unfold Main.pInterp
    rw [if_neg (not_lt.mpr hs.1), if_neg (not_lt.mpr ht.1)]
    have he : (t - 1/2) * 2 - (s - 1/2) * 2 = (t - s) * 2 := by ring
    rw [he, abs_mul, abs_two]
    have := abs_nonneg (t - s)
    linarith

/-- Witness for C4 at `s = 1/4` (bounds) and `s = 0`, `ε = 1` (continuity). -/
theorem c4_blend_param_witness :
    (0 ≤ Main.pInterp (1/4) ∧ Main.pInterp (1/4) ≤ 1) ∧
    (∃ δ : ℚ, 0 < δ ∧ ∀ t ∈ Set.Ico (0 : ℚ) (1/2), |t - 0| < δ →
      |Main.pInterp t - Main.pInterp 0| < 1) :=
  ⟨c4_blend_param_bounds_continuity.1 (1/4) (by norm_num) (by norm_num),
   c4_blend_param_bounds_continuity.2.1 0 (Set.mem_Ico.mpr (by norm_num))
     1 (by norm_num)⟩

/-- C5 counterexample: the scroll listener of `part_000` at
`scrollY = 10`, `innerHeight = 10`, `scrollHeight = 15` divides by
`h = 5 > 0` without clamping and yields 2, outside `[0,1]`; and the
loader's mapper at `scrollTop = 10` with extent 5 clamps to 1, which is
not the raw quotient `10 / max(1, 5) = 2` the claim prescribes. -/
theorem c5_counterexample :
    Main.scrollListenerUpdate 10 10 15 0 = 2 ∧
    ¬ Main.scrollListenerUpdate 10 10 15 0 ≤ 1 ∧
    Loader.scrollUpdate 10 15 10 = 1 ∧
    ¬ Loader.scrollUpdate 10 15 10 = 10 / max 1 ((15:ℚ) - 10) := by
  have hm : max (1:ℚ) ((15:ℚ) - 10) = 5 := by
    rw [(by norm_num : (15:ℚ) - 10 = 5)]
    exact max_eq_right (by norm_num)
  have h1 : Main.scrollListenerUpdate 10 10 15 0 = 2 := by
    simp only [Main.scrollListenerUpdate]
    rw [if_pos (by norm_num : (0:ℚ) < 15 - 10)]
    norm_num
  have h2 : Loader.scrollUpdate 10 15 10 = 1 := by
    simp only [Loader.scrollUpdate, Loader.clamp01]
    rw [hm, (by norm_num : (10:ℚ) / 5 = 2),
      max_eq_right (by norm_num : (0:ℚ) ≤ 2)]
    exact min_eq_left (by norm_num)
  refine ⟨h1, by rw [h1]; norm_num, h2, ?_⟩
  rw [h2, hm]
  norm_num

/-- C5 (amended): the loader's scroll mapper produces
`clamp01(scrollTop / max(1, scrollHeight - clientHeight))` — the
denominator is floored at 1 (so never zero), the result always lies in
`[0,1]`, and it equals the raw quotient exactly when that quotient is
already in `[0,1]`; the `part_000` listener instead updates only when
`scrollHeight - innerHeight > 0` (keeping the previous value otherwise,
so it also never divides by zero) and returns the unclamped quotient. -/
theorem c5_scroll_mapper :
    (∀ st sh ch : ℚ,
      Loader.scrollUpdate st sh ch = Loader.clamp01 (st / max 1 (sh - ch)) ∧
      (1:ℚ) ≤ max 1 (sh - ch) ∧
      0 ≤ Loader.scrollUpdate st sh ch ∧ Loader.scrollUpdate st sh ch ≤ 1) ∧
    (∀ st sh ch : ℚ, 0 ≤ st / max 1 (sh - ch) → st / max 1 (sh - ch) ≤ 1 →
      Loader.scrollUpdate st sh ch = st / max 1 (sh - ch)) ∧
    (∀ sy ih shh old : ℚ,
      (shh - ih ≤ 0 → Main.scrollListenerUpdate sy ih shh old = old) ∧
      (0 < shh - ih → Main.scrollListenerUpdate sy ih shh old = sy / (shh - ih))) := by
  refine ⟨fun st sh ch =>
      ⟨rfl, le_max_left 1 _, Loader.clamp01_nonneg _, Loader.clamp01_le_one _⟩,
    fun st sh ch h0 h1 => Loader.clamp01_eq_self h0 h1,
    fun sy ih shh old => ⟨fun h => ?_, fun h => ?_⟩⟩
  · simp only [Main.scrollListenerUpdate]
    rw [if_neg (not_lt.mpr h)]
  · simp only [Main.scrollListenerUpdate]
    rw [if_pos h]

/-- Witness for the amended C5 at concrete inputs. -/
theorem c5_scroll_mapper_witness :
    Loader.scrollUpdate 5 20 10 = 5 / max 1 ((20:ℚ) - 10) ∧
    Main.scrollListenerUpdate 3 10 10 7 = 7 := by
  have hm : max (1:ℚ) ((20:ℚ) - 10) = 10 := by
    rw [(by norm_num : (20:ℚ) - 10 = 10)]
    exact max_eq_right (by norm_num)
  exact ⟨c5_scroll_mapper.2.1 5 20 10 (by rw [hm]; norm_num) (by rw [hm]; norm_num),
    (c5_scroll_mapper.2.2 3 10 10 7).1 (by norm_num)⟩

/-- C6: the loader's `smoothstep` satisfies `smoothstep 0 = 0`,
`smoothstep 1 = 1`, `smoothstep (1/2) = 1/2`, and is strictly increasing
on the open interval `(0, 1)`. -/
theorem c6_smoothstep_shape (a b : ℚ) :
    Loader.smoothstep 0 = 0 ∧ Loader.smoothstep 1 = 1 ∧
    Loader.smoothstep (1/2) = 1/2 ∧
    (0 < a → a < b → b < 1 → Loader.smoothstep a < Loader.smoothstep b) := by
  have hc0 : Loader.clamp01 0 = 0 := Loader.clamp01_eq_self le_rfl (by norm_num)
  have hc1 : Loader.clamp01 1 = 1 := Loader.clamp01_eq_self (by norm_num) le_rfl
  have hch : Loader.clamp01 (1/2) = 1/2 :=
    Loader.clamp01_eq_self (by norm_num) (by norm_num)
  refine ⟨?_, ?_, ?_, fun h0 hab hb1 => ?_⟩
  · unfold Loader.smoothstep
    rw [hc0]
    ring
  · unfold Loader.smoothstep
    rw [hc1]
    norm_num
  · unfold Loader.smoothstep
    rw [hch]
    norm_num
  · have ha1 : a < 1 := lt_trans hab hb1
    have hb0 : 0 < b := lt_trans h0 hab
    have hca : Loader.clamp01 a = a := Loader.clamp01_eq_self (le_of_lt h0) (le_of_lt ha1)
    have hcb : Loader.clamp01 b = b := Loader.clamp01_eq_self (le_of_lt hb0) (le_of_lt hb1)
    unfold Loader.smoothstep
    rw [hca, hcb]
    have t1 : 0 < (b - a) * (a * (1 - a)) :=
      mul_pos (sub_pos.2 hab) (mul_pos h0 (sub_pos.2 ha1))
    have t2 : 0 < (b - a) * (b * (1 - b)) :=
      mul_pos (sub_pos.2 hab) (mul_pos hb0 (sub_pos.2 hb1))
    have t3 : 0 < (b - a) * (a * (1 - b)) :=
      mul_pos (sub_pos.2 hab) (mul_pos h0 (sub_pos.2 hb1))
    have t4 : 0 < (b - a) * (b * (1 - a)) :=
      mul_pos (sub_pos.2 hab) (mul_pos hb0 (sub_pos.2 ha1))
    nlinarith [t1, t2, t3, t4]

/-- Witness for C6's strict monotonicity at `a = 1/4`, `b = 1/2`. -/
theorem c6_smoothstep_shape_witness :
    Loader.smoothstep (1/4) < Loader.smoothstep (1/2) :=
  (c6_smoothstep_shape (1/4) (1/2)).2.2.2 (by norm_num) (by norm_num) (by norm_num)

/-- C7: the per-frame particle easing step
`current = MathUtils.lerp(current, target, 0.07)` is idempotent at its
fixed point — when the current component equals the target component, the
step leaves it unchanged. -/
theorem c7_ease_fixed_point (current tgt : ℚ) (h : current = tgt) :
    Main.easeStep current tgt = current := by
  subst h
  unfold Main.easeStep Main.mathUtilsLerp
  ring

/-- Witness for C7 at the concrete value 5. -/
theorem c7_ease_fixed_point_witness : Main.easeStep 5 5 = 5 :=
  c7_ease_fixed_point 5 5 rfl

/-- C8: at `scrollProgress = 0` the camera sits exactly at waypoint W1
looking at the origin, the world crystal is fully opaque and visible, and
both overlay fades (the inlined one of `part_000` and the loader's target,
at the configured thresholds `showAt = 0.01`, `fullAt = 0.12`) are 0. -/
theorem c8_scroll_zero_scenario :
    Main.animateCameraUpdate 0 =
      { position := Main.camState1, lookTarget := ⟨0, 0, 0⟩ } ∧
    Main.worldCrystalOpacity 0 = 1 ∧
    Main.worldCrystalVisible 0 = true ∧
    Main.updateTopGLBOpacity 0 (1/100) (3/25) = 0 ∧
    Loader.updateTopGLBTargetOpacity 0 (1/100) (3/25) = 0 := by
  refine ⟨?_, ?_, ?_, ?_, ?_⟩
  · norm_num [Main.animateCameraUpdate, Main.camSrc, Main.camDst, Main.pInterp,
      Main.lerpVectors, Main.camState1, Main.camState2]
  · norm_num [Main.worldCrystalOpacity, Main.animProgress, min_def]
  · norm_num [Main.worldCrystalVisible, Main.animProgress, min_def]
  · norm_num [Main.updateTopGLBOpacity, max_def]
  · norm_num [Loader.updateTopGLBTargetOpacity, Loader.smoothstep, Loader.rampT,
      Loader.clamp01, min_def, max_def]

/-- C9: when the header rectangle has a zero dimension,
`updateTopGLBHeaderCanvasLayout` hides the overlay canvas and changes
nothing else; a subsequent update with a positive rectangle displays it
again with the freshly recomputed fit scale. -/
theorem c9_zero_rect_layout (cfg : Loader.HeaderCanvasConfig)
    (size : Loader.BoxSize) (r0 r1 : Loader.Rect) (st : Loader.HeaderCanvasState)
    (hen : st.enabled = true) (hhd : st.hasHeaderEl = true) (hob : st.hasObject = true)
    (h0 : r0.width = 0 ∨ r0.height = 0)
    (h1w : 0 < r1.width) (h1h : 0 < r1.height) :
    Loader.updateTopGLBHeaderCanvasLayout cfg size r0 st =
      { st with displayed := false } ∧
    (Loader.updateTopGLBHeaderCanvasLayout cfg size r1
      (Loader.updateTopGLBHeaderCanvasLayout cfg size r0 st)).displayed = true ∧
    (Loader.updateTopGLBHeaderCanvasLayout cfg size r1
      (Loader.updateTopGLBHeaderCanvasLayout cfg size r0 st)).pivotScale =
      Loader.computeFitScale cfg.fit cfg.fitAmount r1.width r1.height size.x size.y := by
  have hng : ¬ (0 < r0.width ∧ 0 < r0.height) := by
    rcases h0 with h | h
    · intro hc
      rw [h] at hc
      exact lt_irrefl 0 hc.1
    · intro hc
      rw [h] at hc
      exact lt_irrefl 0 hc.2
  have hfirst : Loader.updateTopGLBHeaderCanvasLayout cfg size r0 st =
      { st with displayed := false } := by
    simp [Loader.updateTopGLBHeaderCanvasLayout, hen, hhd, hob, hng]
  refine ⟨hfirst, ?_, ?_⟩ <;>
    rw [hfirst] <;>
    simp [Loader.updateTopGLBHeaderCanvasLayout, hen, hhd, hob, h1w, h1h]

/-- Witness for C9: a concrete enabled state, a zero-width rectangle, then
a 30×40 rectangle. -/
theorem c9_zero_rect_layout_witness :
    Loader.updateTopGLBHeaderCanvasLayout ⟨"height", 11/20, 0, 0⟩ ⟨1, 2⟩
        ⟨0, 0, 0, 50⟩
        ⟨true, true, true, false, 0, 0, 0, 0, 0, 0, 0, 0, 0, 0, 0, 0, 1, true⟩ =
      { (⟨true, true, true, false, 0, 0, 0, 0, 0, 0, 0, 0, 0, 0, 0, 0, 1, true⟩ :
          Loader.HeaderCanvasState) with displayed := false } ∧
    (Loader.updateTopGLBHeaderCanvasLayout ⟨"height", 11/20, 0, 0⟩ ⟨1, 2⟩
      ⟨5, 6, 30, 40⟩
      (Loader.updateTopGLBHeaderCanvasLayout ⟨"height", 11/20, 0, 0⟩ ⟨1, 2⟩
        ⟨0, 0, 0, 50⟩
        ⟨true, true, true, false, 0, 0, 0, 0, 0, 0, 0, 0, 0, 0, 0, 0, 1, true⟩)).displayed =
      true ∧
    (Loader.updateTopGLBHeaderCanvasLayout ⟨"height", 11/20, 0, 0⟩ ⟨1, 2⟩
      ⟨5, 6, 30, 40⟩
      (Loader.updateTopGLBHeaderCanvasLayout ⟨"height", 11/20, 0, 0⟩ ⟨1, 2⟩
        ⟨0, 0, 0, 50⟩
        ⟨true, true, true, false, 0, 0, 0, 0, 0, 0, 0, 0, 0, 0, 0, 0, 1, true⟩)).pivotScale =
      Loader.computeFitScale "height" (11/20) 30 40 1 2 :=
  c9_zero_rect_layout ⟨"height", 11/20, 0, 0⟩ ⟨1, 2⟩ ⟨0, 0, 0, 50⟩ ⟨5, 6, 30, 40⟩
    ⟨true, true, true, false, 0, 0, 0, 0, 0, 0, 0, 0, 0, 0, 0, 0, 1, true⟩
    rfl rfl rfl (Or.inl rfl) (by norm_num) (by norm_num)

/-- C10: the fit scale of the overlay layout is the guarded division —
it equals `(rect dimension * fitAmount) / (bounding-box size)` only when
that bounding-box size is strictly positive along the fit axis, defaults
to 1 in every other case, and is strictly positive whenever `fitAmount`
and the rectangle dimensions are. -/
theorem c10_fit_scale_guarded (fit : String) (fitAmount rw0 rh0 sx sy : ℚ) :
    (fit = "height" → 0 < sy →
      Loader.computeFitScale fit fitAmount rw0 rh0 sx sy = rh0 * fitAmount / sy) ∧
    (fit = "height" → sy ≤ 0 →
      Loader.computeFitScale fit fitAmount rw0 rh0 sx sy = 1) ∧
    (fit = "width" → 0 < sx →
      Loader.computeFitScale fit fitAmount rw0 rh0 sx sy = rw0 * fitAmount / sx) ∧
    (fit = "width" → sx ≤ 0 →
      Loader.computeFitScale fit fitAmount rw0 rh0 sx sy = 1) ∧
    (fit ≠ "height" → fit ≠ "width" →
      Loader.computeFitScale fit fitAmount rw0 rh0 sx sy = 1) ∧
    (0 < fitAmount → 0 < rw0 → 0 < rh0 →
      0 < Loader.computeFitScale fit fitAmount rw0 rh0 sx sy) := by
  refine ⟨fun hf hs => ?_, fun hf hs => ?_, fun hf hs => ?_, fun hf hs => ?_,
    fun hf hw => ?_, fun hfa hrw hrh => ?_⟩
  · unfold Loader.computeFitScale
    rw [if_pos ⟨hf, hs⟩]
  · unfold Loader.computeFitScale
    rw [if_neg (fun hc => absurd hc.2 (not_lt.mpr hs)),
      if_neg (fun hc => by rw [hf] at hc; exact absurd hc.1 (by decide))]
  · unfold Loader.computeFitScale
    rw [if_neg (fun hc => by rw [hf] at hc; exact absurd hc.1 (by decide)),
      if_pos ⟨hf, hs⟩]
  · unfold Loader.computeFitScale
    rw [if_neg (fun hc => by rw [hf] at hc; exact absurd hc.1 (by decide)),
      if_neg (fun hc => absurd hc.2 (not_lt.mpr hs))]
  · unfold Loader.computeFitScale
    rw [if_neg (fun hc => absurd hc.1 hf), if_neg (fun hc => absurd hc.1 hw)]
  · unfold Loader.computeFitScale
    by_cases h1 : fit = "height" ∧ 0 < sy
    · rw [if_pos h1]
      exact div_pos (mul_pos hrh hfa) h1.2
    · rw [if_neg h1]
      by_cases h2 : fit = "width" ∧ 0 < sx
      · rw [if_pos h2]
        exact div_pos (mul_pos hrw hfa) h2.2
      · rw [if_neg h2]
        norm_num

/-- Witness for C10 with `fit = 'height'`, `fitAmount = 0.55`, a 100×50
rectangle and bounding-box size (3, 2). -/
theorem c10_fit_scale_guarded_witness :
    Loader.computeFitScale "height" (11/20) 100 50 3 2 = 50 * (11/20) / 2 ∧
    0 < Loader.computeFitScale "height" (11/20) 100 50 3 2 :=
  ⟨(c10_fit_scale_guarded "height" (11/20) 100 50 3 2).1 rfl (by norm_num),
   (c10_fit_scale_guarded "height" (11/20) 100 50 3 2).2.2.2.2.2
     (by norm_num) (by norm_num) (by norm_num)⟩
